import Mathlib

/-!
Verification of the tidal focus-monitor core: the detection-trigger loop of
WorkScreen.jsx and the navigation shell of the App component.  Scores and
pixel coordinates are JavaScript numbers; they are embedded as rationals, and
the asynchronous control flow of the loop is embedded as explicit state
passing over scripted inference results and an explicit timer table.
-/

attribute [local semireducible] Rat.ofScientific Rat.mul Rat.inv Rat.add Rat.sub

namespace Tidal

/-- Bounding box of a detection, in the Coco-SSD output order x, y, width,
height, with the origin at the top-left corner of the frame
(WorkScreen.jsx line 55). -/
structure BBox where
  x : ℚ
  y : ℚ
  width : ℚ
  height : ℚ
deriving DecidableEq

/-- One inference result of the model: a class label, a confidence score and
a bounding box (the prediction objects consumed at WorkScreen.jsx
lines 53-71). -/
structure Detection where
  «class» : String
  score : ℚ
  bbox : BBox
deriving DecidableEq

/-- WorkScreen.jsx line 9: the inter-tick delay in milliseconds. -/
def DETECTION_INTERVAL_MS : Nat := 400

/-- WorkScreen.jsx line 10: the confidence threshold. -/
def CONFIDENCE_THRESHOLD : ℚ := 0.65

/-- WorkScreen.jsx line 11: the upper-half threshold. -/
def UPPER_HALF_THRESHOLD : ℚ := 0.5

/-- The per-detection test of the some-callback at WorkScreen.jsx
lines 53-70: class equals "cell phone" or "remote", score strictly above
CONFIDENCE_THRESHOLD, and bounding-box top edge strictly above half the
video height. -/
def isDistraction (videoHeight : ℚ) (prediction : Detection) : Bool :=
  let isPhone := prediction.«class» == "cell phone" || prediction.«class» == "remote"
  let isHighConfidence := decide (prediction.score > CONFIDENCE_THRESHOLD)
  let isUpperHalf := decide (prediction.bbox.y < videoHeight * UPPER_HALF_THRESHOLD)
  isPhone && isHighConfidence && isUpperHalf

/-- The distracted flag computed at WorkScreen.jsx lines 53-71:
predictions.some over the per-detection test. -/
def distracted (videoHeight : ℚ) (predictions : List Detection) : Bool :=
  predictions.any (isDistraction videoHeight)

/-- WorkScreen.jsx line 79: the payload passed to navigate on a trigger. -/
def mockInsult : String :=
  "Seriously, another tab? Truly groundbreaking procrastination. Get back to the code!"

/-- Observable outcome of one execution of the body of runDetection:
either the setTimeout at line 92 is reached, or navigate is called at
line 82 and the function returns at line 85 without rescheduling, or the
awaited detect call at line 50 rejected and the rejection escapes
runDetection (there is no try-catch around it), so no further statement of
the body runs. -/
inductive TickOutcome where
  | reschedule
  | triggered (screen : String) (insult : String)
  | errorPropagated (err : String)
deriving DecidableEq

/-- One execution of the body of runDetection (WorkScreen.jsx lines 41-93),
given whether the model state is non-null, whether webcamRef.current is
non-null with video.readyState equal to 4, the video height, and the result
of the awaited model.detect call (scripted, since inference is external).
Returns the outcome together with a flag recording whether model.detect was
invoked during this tick. -/
def runDetectionTick (modelLoaded frameReady : Bool) (videoHeight : ℚ)
    (inference : Except String (List Detection)) : TickOutcome × Bool :=
  if modelLoaded && frameReady then
    match inference with
    | .error e => (.errorPropagated e, true)
    | .ok predictions =>
      if distracted videoHeight predictions then
        (.triggered "alert" mockInsult, true)
      else
        (.reschedule, true)
  else
    (.reschedule, false)

/-- Scripted input of one tick: whether the webcam feed is ready this tick
and the result the model.detect call would produce on the current frame. -/
structure TickInput where
  frameReady : Bool
  inference : Except String (List Detection)

/-- The self-rescheduling detection loop of one activation, with the model
loaded, consuming a script of tick inputs in order: every tick whose body
reaches the setTimeout at WorkScreen.jsx line 92 is followed by the next
tick; a tick that calls navigate returns without rescheduling; a tick whose
detect call rejects never reaches line 92 either.  Returns the number of
ticks whose bodies executed and the list of navigate calls made, each a
screen name with an insult payload. -/
def runLoop (videoHeight : ℚ) : List TickInput → Nat × List (String × String)
  | [] => (0, [])
  | i :: rest =>
    match (runDetectionTick true i.frameReady videoHeight i.inference).1 with
    | .triggered screen insult => (1, [(screen, insult)])
    | .errorPropagated _ => (1, [])
    | .reschedule =>
      let r := runLoop videoHeight rest
      (r.1 + 1, r.2)

/-- State of the timer machinery around the loop: the ids of setTimeout
timers that are scheduled but have not yet fired or been cleared, the next
fresh timer id, the timer id stored in the timerId variable of the
loop-management effect (WorkScreen.jsx lines 96-109), whether the effect
cleanup has run (after which the component is unmounted and
webcamRef.current is null), the number of tick bodies that have executed,
and the navigate calls made. -/
structure LoopSys where
  pending : List Nat
  nextId : Nat
  effectTimerId : Option Nat
  stopped : Bool
  executedTicks : Nat
  navigations : List (String × String)
deriving DecidableEq

/-- The state before the loop-management effect runs. -/
def initLoopSys : LoopSys :=
  { pending := [], nextId := 0, effectTimerId := none, stopped := false,
    executedTicks := 0, navigations := [] }

/-- setTimeout: registers a fresh pending timer and returns its id. -/
def setTimeoutSys (st : LoopSys) : Nat × LoopSys :=
  (st.nextId,
   { st with pending := st.pending ++ [st.nextId], nextId := st.nextId + 1 })

/-- clearTimeout on an optional stored id: removes that id from the pending
timers if it is still pending, otherwise does nothing. -/
def clearTimeoutSys (id : Option Nat) (st : LoopSys) : LoopSys :=
  match id with
  | none => st
  | some i => { st with pending := st.pending.erase i }

/-- The body of the loop-management effect with the model loaded
(WorkScreen.jsx lines 97-102): timerId = setTimeout(runDetection, 400),
and the id is remembered for the cleanup closure. -/
def effectMount (st : LoopSys) : LoopSys :=
  let r := setTimeoutSys st
  { r.2 with effectTimerId := some r.1 }

/-- The effect cleanup (WorkScreen.jsx lines 105-108), run when the
consuming view is torn down: clearTimeout on the stored timerId only.
Unmounting also nulls webcamRef.current, recorded in the stopped flag. -/
def effectCleanup (st : LoopSys) : LoopSys :=
  { clearTimeoutSys st.effectTimerId st with stopped := true }

/-- A pending timer fires: its tick body (runDetection) executes with the
given scripted input.  After unmount webcamRef.current is null, so the
guard at WorkScreen.jsx line 43 sees the frame as not ready.  A body that
reaches the setTimeout at line 92 schedules a fresh timer whose id is
discarded (not stored anywhere).  Firing an id that is not pending does
nothing. -/
def fireTimer (id : Nat) (inp : TickInput) (videoHeight : ℚ) (st : LoopSys) : LoopSys :=
  if st.pending.contains id then
    let st1 := { st with pending := st.pending.erase id,
                         executedTicks := st.executedTicks + 1 }
    match (runDetectionTick true (inp.frameReady && !st.stopped) videoHeight inp.inference).1 with
    | .triggered screen insult =>
        { st1 with navigations := st1.navigations ++ [(screen, insult)] }
    | .errorPropagated _ => st1
    | .reschedule => (setTimeoutSys st1).2
  else
    st

/-- The model handle produced by cocoSsd.load at WorkScreen.jsx line 29;
the loop only ever tests it for presence. -/
structure CocoModel where
  base : String
deriving DecidableEq

/-- State of the WorkScreen component cells set by the model-loading
effect: the model cell (initially null) and the status text (initially the
loading message, WorkScreen.jsx lines 17-18). -/
structure SessionState where
  model : Option CocoModel
  status : String
  loopStarted : Bool
deriving DecidableEq

/-- The component state when WorkScreen mounts. -/
def initSession : SessionState :=
  { model := none, status := "Loading AI Model...", loopStarted := false }

/-- The loadModel function (WorkScreen.jsx lines 25-37): on success the
model cell is set and the status becomes the ready message; on any failure
the catch block only sets the error status, leaves the model cell null, and
nothing re-invokes loadModel (the effect at lines 24-38 runs once). -/
def loadModel (result : Except String CocoModel) (s : SessionState) : SessionState :=
  match result with
  | .ok loadedModel => { s with model := some loadedModel, status := "AI Ready. Get to work!" }
  | .error _ => { s with status := "Error loading AI. Check console." }

/-- The loop-management effect (WorkScreen.jsx lines 96-101): the detection
loop is started only when the model cell is non-null. -/
def startLoopEffect (s : SessionState) : SessionState :=
  if s.model.isSome then { s with loopStarted := true } else s

/-- One WorkScreen session: loadModel runs once with the given outcome,
then the loop-management effect reacts to the model cell. -/
def mountSession (result : Except String CocoModel) : SessionState :=
  startLoopEffect (loadModel result initSession)

/-- State of the App shell (part_000 lines 17-21): the current screen, the
insult message and the distraction count. -/
structure AppState where
  currentScreen : String
  insult : String
  distractionCount : Nat
deriving DecidableEq

/-- The initial App state (part_000 lines 19-21). -/
def initialAppState : AppState :=
  { currentScreen := "work", insult := "", distractionCount := 0 }

/-- The navigate function of the App shell (part_000 lines 24-30).  The
data argument defaults to an object with no insult field; data.insult is
an optional string, and the JavaScript or-else at line 27 falls back to
the catch message when the field is absent or the empty string. -/
def navigate (screen : String) (data : Option String) (s : AppState) : AppState :=
  let s1 :=
    if screen = "alert" then
      { s with distractionCount := s.distractionCount + 1,
               insult :=
                 match data with
                 | some str => if str = "" then "You were caught!" else str
                 | none => "You were caught!" }
    else s
  { s1 with currentScreen := screen }

/-- Helper: the per-detection test, spelled out as a proposition. -/
theorem isDistraction_eq_true_iff (h : ℚ) (d : Detection) :
    isDistraction h d = true ↔
      (d.«class» = "cell phone" ∨ d.«class» = "remote") ∧
        d.score > CONFIDENCE_THRESHOLD ∧ d.bbox.y < h * UPPER_HALF_THRESHOLD := by
  simp [isDistraction, Bool.and_eq_true, Bool.or_eq_true, beq_iff_eq,
    decide_eq_true_eq, and_assoc]

/-- Helper: predictions.some is invariant under permutation of the
prediction list. -/
theorem distracted_perm (h : ℚ) {D D' : List Detection} (hperm : D.Perm D') :
    distracted h D = distracted h D' := by
  unfold distracted
  induction hperm with
  | nil => rfl
  | cons x _ ih => simp [List.any_cons, ih]
  | swap x y l => simp [List.any_cons, Bool.or_left_comm]
  | trans _ _ ih1 ih2 => exact ih1.trans ih2

/-- Claim C1: the trigger predicate is true exactly when some detection in
the set has class "cell phone" or "remote", score strictly above 0.65 and
top-left y strictly below half the frame height, and its value is invariant
under reordering of the Detection Set. -/
theorem trigger_predicate_characterisation (h : ℚ) (D D' : List Detection)
    (hperm : D.Perm D') :
    (distracted h D = true ↔
      ∃ d ∈ D, (d.«class» = "cell phone" ∨ d.«class» = "remote") ∧
        d.score > 0.65 ∧ d.bbox.y < h * 0.5) ∧
    distracted h D = distracted h D' := by
  constructor
  · rw [distracted, List.any_eq_true]
    constructor
    · rintro ⟨d, hd, hp⟩
      exact ⟨d, hd, (isDistraction_eq_true_iff h d).mp hp⟩
    · rintro ⟨d, hd, hp⟩
      exact ⟨d, hd, (isDistraction_eq_true_iff h d).mpr hp⟩
  · exact distracted_perm h hperm

/-- Witness for Claim C1 at a concrete pair of permuted Detection Sets. -/
theorem trigger_predicate_characterisation_witness :
    (distracted 480
        [⟨"cell phone", 0.9, ⟨10, 50, 100, 150⟩⟩, ⟨"book", 0.9, ⟨0, 0, 5, 5⟩⟩] = true ↔
      ∃ d ∈ [⟨"cell phone", 0.9, ⟨10, 50, 100, 150⟩⟩,
             (⟨"book", 0.9, ⟨0, 0, 5, 5⟩⟩ : Detection)],
        (d.«class» = "cell phone" ∨ d.«class» = "remote") ∧
          d.score > 0.65 ∧ d.bbox.y < 480 * 0.5) ∧
    distracted 480
        [⟨"cell phone", 0.9, ⟨10, 50, 100, 150⟩⟩, ⟨"book", 0.9, ⟨0, 0, 5, 5⟩⟩]
      = distracted 480
        [⟨"book", 0.9, ⟨0, 0, 5, 5⟩⟩, ⟨"cell phone", 0.9, ⟨10, 50, 100, 150⟩⟩] :=
  trigger_predicate_characterisation 480 _ _
    (List.Perm.swap (⟨"book", 0.9, ⟨0, 0, 5, 5⟩⟩ : Detection)
      (⟨"cell phone", 0.9, ⟨10, 50, 100, 150⟩⟩ : Detection) [])

/-- Claim C5: with a watched class and a top edge in the upper half, a
score of exactly 0.65 does not trigger while a score of 0.6501 does. -/
theorem confidence_gate_strict (h x y w t : ℚ) (c : String)
    (hc : c = "cell phone" ∨ c = "remote") (hy : y < h * 0.5) :
    distracted h [⟨c, 0.65, ⟨x, y, w, t⟩⟩] = false ∧
    distracted h [⟨c, 0.6501, ⟨x, y, w, t⟩⟩] = true := by
  constructor
  · have hs : ¬ ((0.65 : ℚ) > CONFIDENCE_THRESHOLD) := by decide
    simp [distracted, isDistraction, hs]
  · have hd : isDistraction h ⟨c, 0.6501, ⟨x, y, w, t⟩⟩ = true :=
      (isDistraction_eq_true_iff h _).mpr
        ⟨hc, (by decide : (0.6501 : ℚ) > CONFIDENCE_THRESHOLD), hy⟩
    simp [distracted, hd]

/-- Witness for Claim C5 at frame height 480, y equal to 50. -/
theorem confidence_gate_strict_witness :
    ((50 : ℚ) < 480 * 0.5) ∧
    distracted 480 [⟨"cell phone", 0.65, ⟨10, 50, 100, 150⟩⟩] = false ∧
    distracted 480 [⟨"cell phone", 0.6501, ⟨10, 50, 100, 150⟩⟩] = true :=
  ⟨by decide,
   confidence_gate_strict 480 10 50 100 150 "cell phone" (Or.inl rfl) (by decide)⟩

/-- Claim C6: with a watched class and a sufficient score, a top edge of
exactly half the frame height does not trigger while one unit higher
does. -/
theorem spatial_gate_strict (h x w t s : ℚ) (c : String)
    (hc : c = "cell phone" ∨ c = "remote") (hs : s > 0.65) :
    distracted h [⟨c, s, ⟨x, h * 0.5, w, t⟩⟩] = false ∧
    distracted h [⟨c, s, ⟨x, h * 0.5 - 1, w, t⟩⟩] = true := by
  constructor
  · have hy : ¬ (h * 0.5 < h * UPPER_HALF_THRESHOLD) := by
      rw [UPPER_HALF_THRESHOLD]
      exact lt_irrefl _
    simp [distracted, isDistraction, hy]
  · have hd : isDistraction h ⟨c, s, ⟨x, h * 0.5 - 1, w, t⟩⟩ = true :=
      (isDistraction_eq_true_iff h _).mpr
        ⟨hc, hs, by rw [UPPER_HALF_THRESHOLD]; exact sub_lt_self _ one_pos⟩
    simp [distracted, hd]

/-- Witness for Claim C6 at frame height 480 and score 0.9: the boundary
row 240 does not trigger, row 239 does. -/
theorem spatial_gate_strict_witness :
    distracted 480 [⟨"cell phone", 0.9, ⟨10, 480 * 0.5, 100, 150⟩⟩] = false ∧
    distracted 480 [⟨"cell phone", 0.9, ⟨10, 480 * 0.5 - 1, 100, 150⟩⟩] = true :=
  spatial_gate_strict 480 10 100 150 0.9 "cell phone" (Or.inl rfl) (by decide)

/-- Claim C2 concerns a tick whose model.detect call rejects.  The body of
runDetection has no try-catch, so the rejection escapes and the setTimeout
at WorkScreen.jsx line 92 is never reached: a loop fed a failing tick and
then a healthy tick executes only the failing tick and halts, instead of
treating the failure as an empty Detection Set and scheduling one more
tick. -/
theorem inference_error_halts_loop :
    runDetectionTick true true 480 (.error "boom") = (.errorPropagated "boom", true) ∧
    runLoop 480 [⟨true, .error "boom"⟩, ⟨true, .ok []⟩] = (1, []) := by
  decide

/-- Claim C3: once a tick sees a ready frame and a Detection Set satisfying
the trigger predicate, the loop makes exactly one navigate call to the
alert screen with the insult payload, and no tick after it executes: the
tick count is the position of the triggering tick, whatever script
follows. -/
theorem at_most_once_trigger (h : ℚ) (pre post : List TickInput) (t : TickInput)
    (hpre : ∀ i ∈ pre, (runDetectionTick true i.frameReady h i.inference).1 = .reschedule)
    (ht : t.frameReady = true) (preds : List Detection)
    (hinf : t.inference = .ok preds) (htrig : distracted h preds = true) :
    runLoop h (pre ++ t :: post) = (pre.length + 1, [("alert", mockInsult)]) := by
  induction pre with
  | nil => simp [runLoop, runDetectionTick, ht, hinf, htrig]
  | cons a as ih =>
    have ha := hpre a (List.mem_cons_self a as)
    have ih' := ih fun i hi => hpre i (List.mem_cons_of_mem a hi)
    simp only [List.cons_append, runLoop, ha, List.append_eq, ih', List.length_cons]

/-- Witness for Claim C3: a frame-not-ready tick, then a triggering tick,
then a scripted healthy tick that never executes. -/
theorem at_most_once_trigger_witness :
    runLoop 480
      [⟨false, .ok []⟩,
       ⟨true, .ok [⟨"cell phone", 0.9, ⟨10, 50, 100, 150⟩⟩]⟩,
       ⟨true, .ok []⟩]
      = (2, [("alert", mockInsult)]) :=
  at_most_once_trigger 480 [⟨false, .ok []⟩] [⟨true, .ok []⟩]
    ⟨true, .ok [⟨"cell phone", 0.9, ⟨10, 50, 100, 150⟩⟩]⟩
    (by decide) rfl [⟨"cell phone", 0.9, ⟨10, 50, 100, 150⟩⟩] rfl (by decide)

/-- Claim C4 concerns cancellation.  The effect cleanup clears only the
timer id stored when the effect mounted; the timer created inside
runDetection at WorkScreen.jsx line 92 is never stored, so a stop issued in
the gap after the first tick leaves that timer pending, its tick body still
executes, and it even reschedules again: after the first tick has run,
cleanup no longer stops anything. -/
theorem cancellation_misses_rescheduled_tick :
    (effectCleanup (fireTimer 0 ⟨true, .ok []⟩ 480 (effectMount initLoopSys))).stopped
        = true ∧
    (effectCleanup (fireTimer 0 ⟨true, .ok []⟩ 480 (effectMount initLoopSys))).pending
        = [1] ∧
    (fireTimer 1 ⟨true, .ok []⟩ 480
        (effectCleanup (fireTimer 0 ⟨true, .ok []⟩ 480
          (effectMount initLoopSys)))).executedTicks = 2 ∧
    (fireTimer 1 ⟨true, .ok []⟩ 480
        (effectCleanup (fireTimer 0 ⟨true, .ok []⟩ 480
          (effectMount initLoopSys)))).pending = [2] := by
  decide

/-- Claim C7: when the model cell is null or the webcam feed is not ready,
the tick skips inference (model.detect is not invoked) and goes straight to
rescheduling. -/
theorem frame_guard_skips_inference (m r : Bool) (h : ℚ)
    (inf : Except String (List Detection)) (hg : ¬ (m = true ∧ r = true)) :
    runDetectionTick m r h inf = (.reschedule, false) := by
  have hmr : (m && r) = false := by
    cases m <;> cases r <;> simp_all
  simp [runDetectionTick, hmr]

/-- Witness for Claim C7: model loaded but the feed not yet ready. -/
theorem frame_guard_skips_inference_witness :
    runDetectionTick true false 480 (.ok [⟨"cell phone", 0.9, ⟨10, 50, 100, 150⟩⟩])
      = (.reschedule, false) :=
  frame_guard_skips_inference true false 480
    (.ok [⟨"cell phone", 0.9, ⟨10, 50, 100, 150⟩⟩]) (by decide)

/-- Claim C8: when model loading fails, the catch block surfaces the
human-readable error status, the model cell stays null, and the
loop-management effect therefore never starts the detection loop; nothing
re-invokes the loader. -/
theorem load_failure_never_starts_loop (e : String) :
    mountSession (.error e) =
      { model := none, status := "Error loading AI. Check console.",
        loopStarted := false } := by
  rfl

/-- Witness for Claim C8 at a concrete load failure. -/
theorem load_failure_never_starts_loop_witness :
    mountSession (.error "network failure") =
      { model := none, status := "Error loading AI. Check console.",
        loopStarted := false } :=
  load_failure_never_starts_loop "network failure"

/-- Helper: the per-detection test reads only the class, the score and the
bounding-box y of a detection. -/
theorem isDistraction_congr (h : ℚ) (d d' : Detection)
    (hc : d.«class» = d'.«class») (hs : d.score = d'.score)
    (hy : d.bbox.y = d'.bbox.y) : isDistraction h d = isDistraction h d' := by
  simp [isDistraction, hc, hs, hy]

/-- Claim C9: two Detection Sets that agree pointwise on class, score and
bounding-box y produce the same trigger-predicate value, whatever their
bounding-box x, width and height. -/
theorem predicate_independent_of_bbox_extent (h : ℚ) (D D' : List Detection)
    (hag : List.Forall₂
      (fun d d' => d.«class» = d'.«class» ∧ d.score = d'.score ∧ d.bbox.y = d'.bbox.y)
      D D') :
    distracted h D = distracted h D' := by
  induction hag with
  | nil => rfl
  | cons hd _ ih =>
    unfold distracted at ih ⊢
    simp only [List.any_cons, ih, isDistraction_congr h _ _ hd.1 hd.2.1 hd.2.2]

/-- Witness for Claim C9: moving the box sideways and resizing it does not
change the predicate. -/
theorem predicate_independent_of_bbox_extent_witness :
    distracted 480 [⟨"cell phone", 0.9, ⟨10, 50, 100, 150⟩⟩]
      = distracted 480 [⟨"cell phone", 0.9, ⟨400, 50, 7, 999⟩⟩] :=
  predicate_independent_of_bbox_extent 480 _ _
    (List.Forall₂.cons ⟨rfl, rfl, rfl⟩ List.Forall₂.nil)

/-- Claim C10: a navigate call to the alert screen increments the
distraction count and sets the insult to the payload, falling back to the
catch message when the payload is absent or empty; a navigate call to any
other screen changes neither cell. -/
theorem navigate_updates (s : AppState) (data : Option String) (screen : String) :
    ((navigate "alert" data s).distractionCount = s.distractionCount + 1 ∧
      ((data = none ∨ data = some "") →
        (navigate "alert" data s).insult = "You were caught!") ∧
      (∀ p : String, p ≠ "" → data = some p → (navigate "alert" data s).insult = p)) ∧
    (screen ≠ "alert" →
      (navigate screen data s).distractionCount = s.distractionCount ∧
      (navigate screen data s).insult = s.insult) := by
  refine ⟨⟨rfl, ?_, ?_⟩, ?_⟩
  · rintro (rfl | rfl) <;> rfl
  · rintro p hp rfl
    simp [navigate, hp]
  · intro hne
    simp [navigate, hne]

/-- Witness for Claim C10: navigating to the alert screen with payload
"lol" from the initial state, and to the stats screen. -/
theorem navigate_updates_witness :
    (navigate "alert" (some "lol") initialAppState).distractionCount = 1 ∧
    (navigate "alert" (some "lol") initialAppState).insult = "lol" ∧
    (navigate "stats" (some "lol") initialAppState).insult = "" := by
  have h := navigate_updates initialAppState (some "lol") "stats"
  exact ⟨h.1.1, h.1.2.2 "lol" (by decide) rfl, (h.2 (by decide)).2⟩

end Tidal
